import Mathlib

/-!
Shallow embedding of `src/scripts/ganeshactl/ganesha_prometheus_exporter.py`:
the NFS-Ganesha Prometheus exporter.  The decoder of per-client IO stats
records, the global-stats projector, the per-scrape client loop, the CLI
argument parsing and the startup probe are translated into executable Lean
definitions, and the specification claims about them are settled below.
-/

namespace GaneshaExporter

/-- One element of the dbus `iops_stats.stats` array: either a plain integer
counter (used by the presence flags and reserved slots) or a nested array of
counters (one sub-record of an active protocol segment).  The Python code
indexes some slots directly (`stats[cnt]`) and subscripts others
(`stats[idx][0]`). -/
inductive Slot where
  | num (n : Nat)
  | arr (xs : List Nat)
deriving DecidableEq

/-- Python truthiness of a slot, as tested by `if not iops_stats.stats[cnt]`:
an integer is truthy iff nonzero, an array is truthy iff nonempty. -/
def slotTruthy : Slot → Bool
  | .num 0 => false
  | .num (_ + 1) => true
  | .arr [] => false
  | .arr (_ :: _) => true

/-- Reading `stats[i]` on a Python list: an out-of-range index raises
IndexError, modelled as the error branch. -/
def getSlot (stats : List Slot) (i : Nat) : Except String Slot :=
  match stats.get? i with
  | some s => Except.ok s
  | none => Except.error "IndexError"

/-- Reading `slot[k]` on one stats slot: subscripting a plain integer raises
TypeError, an out-of-range index into the nested array raises IndexError. -/
def subVal : Slot → Nat → Except String Nat
  | .num _, _ => Except.error "TypeError"
  | .arr xs, k =>
    match xs.get? k with
    | some v => Except.ok v
    | none => Except.error "IndexError"

/-- Reading `iops_stats.stats[i][k]`, in Python evaluation order: the outer
index first, then the nested one. -/
def readSub (stats : List Slot) (i k : Nat) : Except String Nat :=
  match getSlot stats i with
  | Except.error e => Except.error e
  | Except.ok s => subVal s k

/-- One emitted Prometheus gauge observation: a GaugeMetricFamily carrying a
single sample (metric name, help text, label names, label values, value). -/
structure Obs where
  name : String
  docs : String
  labelNames : List String
  labelValues : List String
  value : Nat
deriving DecidableEq

/-- Collector.make_name: the fixed "nfs_ganesha" namespace, the collector
sub-name and the suffix, joined by underscores. -/
def make_name (col_name sname : String) : String :=
  "nfs_ganesha" ++ "_" ++ col_name ++ "_" ++ sname

/-- ClientCollector.add_gauge_metric: a gauge in the "client" collector with
the single label "addr" holding the client address. -/
def add_gauge_metric (sname docs addr : String) (val : Nat) : Obs :=
  { name := make_name "client" sname, docs := docs,
    labelNames := ["addr"], labelValues := [addr], value := val }

/-- ClientCollector.protocol_tag: `str(proto).lower().replace(".", "")`,
embedded at the character level (lowercase every character, drop every
dot; the replacement pattern is the single character dot). -/
def protocol_tag (proto : String) : String :=
  String.mk ((proto.data.map Char.toLower).filter (fun c => c ≠ '.'))

/-- The `protos` dictionary of collect_io_ops_stats_of, looked up with
`protos.get(j, "")`. -/
def protos : Nat → String
  | 0 => "NFSv3"
  | 1 => "NFSv4.0"
  | 2 => "NFSv4.1"
  | 3 => "NFSv4.2"
  | _ => ""

/-- Body of the inner while-loop of collect_io_ops_stats_of for one active
protocol segment whose presence flag sits at cursor `cnt`: the iterations
`i = 0, 1, 2` emit READ total/errors/transferred from `stats[cnt + 1]`,
WRITE total/errors/transferred from `stats[cnt + 2]` and OTHER total/errors
from `stats[cnt + 3]`, reading the nested values in exactly the order the
Python code does; the `i = 3` iteration (reached only for `j ≥ 2`) is a
no-op (`pass`), so it is not represented. -/
def emitProto (addr proto : String) (stats : List Slot) (cnt : Nat) :
    Except String (List Obs) :=
  match readSub stats (cnt + 1) 0 with
  | Except.error e => Except.error e
  | Except.ok r0 =>
    match readSub stats (cnt + 1) 1 with
    | Except.error e => Except.error e
    | Except.ok r1 =>
      match readSub stats (cnt + 1) 2 with
      | Except.error e => Except.error e
      | Except.ok r2 =>
        match readSub stats (cnt + 2) 0 with
        | Except.error e => Except.error e
        | Except.ok w0 =>
          match readSub stats (cnt + 2) 1 with
          | Except.error e => Except.error e
          | Except.ok w1 =>
            match readSub stats (cnt + 2) 2 with
            | Except.error e => Except.error e
            | Except.ok w2 =>
              match readSub stats (cnt + 3) 0 with
              | Except.error e => Except.error e
              | Except.ok o0 =>
                match readSub stats (cnt + 3) 1 with
                | Except.error e => Except.error e
                | Except.ok o1 =>
                  Except.ok
                    [ add_gauge_metric ("io_ops_" ++ protocol_tag proto ++ "_read_total")
                        (proto ++ " READ total") addr r0,
                      add_gauge_metric ("io_ops_" ++ protocol_tag proto ++ "_read_errors")
                        (proto ++ " READ errors") addr r1,
                      add_gauge_metric ("io_ops_" ++ protocol_tag proto ++ "_read_transferred")
                        (proto ++ " READ transferred") addr r2,
                      add_gauge_metric ("io_ops_" ++ protocol_tag proto ++ "_write_total")
                        (proto ++ " WRITE total") addr w0,
                      add_gauge_metric ("io_ops_" ++ protocol_tag proto ++ "_write_errors")
                        (proto ++ " WRITE errors") addr w1,
                      add_gauge_metric ("io_ops_" ++ protocol_tag proto ++ "_write_transferred")
                        (proto ++ " WRITE transferred") addr w2,
                      add_gauge_metric ("io_ops_" ++ protocol_tag proto ++ "_other_total")
                        (proto ++ " other total") addr o0,
                      add_gauge_metric ("io_ops_" ++ protocol_tag proto ++ "_other_errors")
                        (proto ++ " other errors") addr o1 ]

/-- Outer for-loop of collect_io_ops_stats_of: walk the protocol indices in
`js` with cursor `cnt`, reading the presence flag at `stats[cnt]` for each;
a falsy flag advances the cursor by one, a truthy flag emits the eight
observations of the segment and advances the cursor by 4 (`j < 2`) or 5
(`j ≥ 2`).  Returns the emitted observations together with the final cursor
value. -/
def collectProtos (addr : String) (stats : List Slot) :
    List Nat → Nat → Except String (List Obs × Nat)
  | [], cnt => Except.ok ([], cnt)
  | j :: js, cnt =>
    match getSlot stats cnt with
    | Except.error e => Except.error e
    | Except.ok flag =>
      if slotTruthy flag then
        match emitProto addr (protos j) stats cnt with
        | Except.error e => Except.error e
        | Except.ok obs =>
          match collectProtos addr stats js (cnt + (if j < 2 then 4 else 5)) with
          | Except.error e => Except.error e
          | Except.ok (rest, fin) => Except.ok (obs ++ rest, fin)
      else
        collectProtos addr stats js (cnt + 1)

/-- ClientCollector.collect_io_ops_stats_of for one client address: cursor
starts at 3 (the leading fixed region), protocol indices 0..3. -/
def collect_io_ops_stats_of (addr : String) (stats : List Slot) :
    Except String (List Obs) :=
  match collectProtos addr stats [0, 1, 2, 3] 3 with
  | Except.error e => Except.error e
  | Except.ok (obs, _) => Except.ok obs

/-- Reply of the dbus call `client_io_ops_stats(addr)`: a status string and
the stats array. -/
structure IopsReply where
  status : String
  stats : List Slot

/-- One row of the dbus client listing; the address is `client[0]`. -/
structure ClientRow where
  addr : String
  rest : List String

/-- ClientCollector.collect_io_ops_stats: query the IO-ops stats of every
listed client and decode only replies whose status is "OK".  The `query`
function stands for the dbus call performed during one scrape; a fresh
scrape is a fresh invocation of this function with that scrape's replies. -/
def collect_io_ops_stats (query : String → IopsReply) :
    List ClientRow → Except String (List Obs)
  | [] => Except.ok []
  | c :: cs =>
    if (query c.addr).status = "OK" then
      match collect_io_ops_stats_of c.addr (query c.addr).stats with
      | Except.error e => Except.error e
      | Except.ok obs =>
        match collect_io_ops_stats query cs with
        | Except.error e => Except.error e
        | Except.ok more => Except.ok (obs ++ more)
    else
      collect_io_ops_stats query cs

/-- Snapshot returned by the dbus call `global_stats()`. -/
structure GlobalStats where
  success : Bool
  status : String
  nfsv3_total : Nat
  nfsv40_total : Nat
  nfsv41_total : Nat
  nfsv42_total : Nat

/-- Gauge of the "export" collector labelled by the status string, as built
by make_gauge with labels ["status"] followed by add_metric([status], v). -/
def statusGauge (sname docs status : String) (v : Nat) : Obs :=
  { name := make_name "export" sname, docs := docs,
    labelNames := ["status"], labelValues := [status], value := v }

/-- ExportCollector.collect_global_stats: the four per-protocol total
gauges, each labelled by the status string, each zero when success is
false. -/
def collect_global_stats (g : GlobalStats) : List Obs :=
  [ statusGauge "total_ops_nfsv3" "Total number of NFSv3 ops" g.status
      (if g.success then g.nfsv3_total else 0),
    statusGauge "total_ops_nfsv40" "Total number of NFSv4.0 ops" g.status
      (if g.success then g.nfsv40_total else 0),
    statusGauge "total_ops_nfsv41" "Total number of NFSv4.1 ops" g.status
      (if g.success then g.nfsv41_total else 0),
    statusGauge "total_ops_nfsv42" "Total number of NFSv4.2 ops" g.status
      (if g.success then g.nfsv42_total else 0) ]

/-- MetricsEndpoint.probe_ganesha: one global-stats query projected to the
pair (bool(stats.success), str(stats.status)). -/
def probe_ganesha (g : GlobalStats) : Bool × String := (g.success, g.status)

/-- Observable outcome of main after argument parsing: either
goodbye(code, msg) or serve_http on the given port. -/
inductive MainOutcome where
  | exitWith (code : Nat) (msg : String)
  | serveHttp (port : Int)
deriving DecidableEq

/-- Body of main after parseargs: perform the startup probe once (the first
answer of the global-stats oracle); on failure goodbye(1, status), on
success serve_http(port).  The oracle indexes successive global-stats
replies of the server; main consumes only reply 0. -/
def mainFlow (oracle : Nat → GlobalStats) (port : Int) : MainOutcome :=
  match probe_ganesha (oracle 0) with
  | (true, _) => MainOutcome.serveHttp port
  | (false, status) => MainOutcome.exitWith 1 status

/-- Result of parseargs: a port value, usage(code) followed by exit, or an
uncaught ValueError raised by int() on the given argument text. -/
inductive ParseOutcome where
  | ok (port : Int)
  | usageExit (code : Nat)
  | valueError (arg : String)
deriving DecidableEq

/-- Split a long-option text at its first equals sign, returning the option
name and, when present, the attached value. -/
def splitAtEq : List Char → List Char × Option (List Char)
  | [] => ([], none)
  | '=' :: t => ([], some t)
  | c :: t =>
    match splitAtEq t with
    | (nm, v) => (c :: nm, v)

/-- Classification of one command-line argument by
getopt.getopt(argv, "p:", ["port="]): a non-option (stops parsing), the
"--" terminator, an option with an attached value, an option whose value is
the next argument, or an unknown option (GetoptError). -/
inductive OptStep where
  | nonoption
  | term
  | optAttached (o v : String)
  | optNeedsArg (o : String)
  | bad
deriving DecidableEq

/-- Test whether the first character list starts the second one. -/
def leadsList : List Char → List Char → Bool
  | [], _ => true
  | _ :: _, [] => false
  | c :: cs, d :: ds => if c = d then leadsList cs ds else false

/-- Classify one argument for the option table "p:" and ["port="]: an empty
argument or one not starting with a dash (including the bare dash) is a
non-option; "--" terminates.  A long option is split at its first equals
sign and its name is accepted exactly when it starts the single long option
name "port" — getopt resolves a long option to the unique registered
option it is a prefix of, so "--port", "--po" and even "--" followed by
"=VAL" (empty name) all denote --port, which always takes a value
(attached after the equals sign, or from the next argument).  A short
option "-pVAL" carries an attached value and a bare "-p" takes the next
argument; any other option character or long-option name is unknown. -/
def classifyArg : List Char → OptStep
  | [] => OptStep.nonoption
  | c0 :: rest0 =>
    if c0 = '-' then
      match rest0 with
      | [] => OptStep.nonoption
      | c1 :: rest1 =>
        if c1 = '-' then
          match rest1 with
          | [] => OptStep.term
          | c2 :: rest2 =>
            match splitAtEq (c2 :: rest2) with
            | (nm, some v) =>
              if leadsList nm ['p', 'o', 'r', 't'] then
                OptStep.optAttached "--port" (String.mk v)
              else OptStep.bad
            | (nm, none) =>
              if leadsList nm ['p', 'o', 'r', 't'] then OptStep.optNeedsArg "--port"
              else OptStep.bad
        else
          if c1 = 'p' then
            match rest1 with
            | [] => OptStep.optNeedsArg "-p"
            | _ :: _ => OptStep.optAttached "-p" (String.mk rest1)
          else OptStep.bad
    else OptStep.nonoption

/-- Model of getopt.getopt(argv, "p:", ["port="]) over arguments given as
character lists: walk the arguments, classify each, consume option values,
stop at the terminator or the first non-option, and fail with GetoptError
on an unknown option or a missing option argument.  Returns the (option,
value) pairs and the remaining positional arguments. -/
def pygetopt : List (List Char) → Except String (List (String × String) × List (List Char))
  | [] => Except.ok ([], [])
  | a :: more =>
    match classifyArg a with
    | OptStep.nonoption => Except.ok ([], a :: more)
    | OptStep.term => Except.ok ([], more)
    | OptStep.bad => Except.error "GetoptError"
    | OptStep.optAttached o v =>
      match pygetopt more with
      | Except.error e => Except.error e
      | Except.ok (opts, args) => Except.ok ((o, v) :: opts, args)
    | OptStep.optNeedsArg o =>
      match more with
      | [] => Except.error "GetoptError"
      | b :: more2 =>
        match pygetopt more2 with
        | Except.error e => Except.error e
        | Except.ok (opts, args) => Except.ok ((o, String.mk b) :: opts, args)

/-- Whitespace as stripped by Python int(): the characters satisfying
Py_UNICODE_ISSPACE — 0x09..0x0D, 0x1C..0x1F, space, 0x85, 0xA0, 0x1680,
0x2000..0x200A, 0x2028, 0x2029, 0x202F, 0x205F and 0x3000. -/
def isPySpace (c : Char) : Bool :=
  let n := c.toNat
  (9 ≤ n && n ≤ 13) || (28 ≤ n && n ≤ 32) || n == 133 || n == 160 ||
    n == 5760 || (8192 ≤ n && n ≤ 8202) || n == 8232 || n == 8233 ||
    n == 8239 || n == 8287 || n == 12288

/-- Strip leading and trailing Python whitespace from a character list. -/
def pyStrip (l : List Char) : List Char :=
  ((l.dropWhile isPySpace).reverse.dropWhile isPySpace).reverse

/-- Continue scanning a digit group after at least one digit has been read:
further ASCII digits accumulate, a single underscore is allowed only
between two digits (PEP 515), anything else fails. -/
def pyDigitsGo (acc : Nat) : List Char → Option Nat
  | [] => some acc
  | d :: ds =>
    if d = '_' then
      match ds with
      | [] => none
      | d2 :: ds2 =>
        if d2.isDigit then pyDigitsGo (acc * 10 + (d2.toNat - 48)) ds2 else none
    else if d.isDigit then pyDigitsGo (acc * 10 + (d.toNat - 48)) ds else none

/-- Value of a digit group: a nonempty ASCII-digit sequence with single
underscores only between digits, none otherwise. -/
def pyDigits? : List Char → Option Nat
  | [] => none
  | d :: ds => if d.isDigit then pyDigitsGo (d.toNat - 48) ds else none

/-- Model of int(a): strip surrounding whitespace, allow one optional sign,
then a decimal digit group with underscore separators; none models the
ValueError raised on any other text.  Exact for ASCII digits; non-ASCII
decimal digits are outside the model (see allAscii). -/
def pyInt? (s : String) : Option Int :=
  match pyStrip s.data with
  | '-' :: ds => (pyDigits? ds).map (fun n => -(n : Int))
  | '+' :: ds => (pyDigits? ds).map (fun n => (n : Int))
  | ds => (pyDigits? ds).map (fun n => (n : Int))

/-- MetricsEndpoint.DEFAULT_PORT. -/
def DEFAULT_PORT : Int := 8080

/-- Option loop of parseargs: each -p or --port option overrides the port (the last
one wins); int() raises ValueError at the first non-integer value; any
other option name would reach usage(3). -/
def applyOpts : List (String × String) → Int → ParseOutcome
  | [], port => ParseOutcome.ok port
  | (o, a) :: opts, _port =>
    if o = "-p" ∨ o = "--port" then
      match pyInt? a with
      | some n => applyOpts opts n
      | none => ParseOutcome.valueError a
    else ParseOutcome.usageExit 3

/-- parseargs: run getopt over the argument texts; a getopt failure prints
the error and calls usage(1); leftover positional arguments call usage(2);
otherwise the option loop runs starting from the default port 8080. -/
def parseargs (argv : List String) : ParseOutcome :=
  match pygetopt (argv.map String.data) with
  | Except.error _ => ParseOutcome.usageExit 1
  | Except.ok (opts, args) =>
    if args.length > 0 then ParseOutcome.usageExit 2
    else applyOpts opts DEFAULT_PORT

/-- Cursor positions of the trailing reserved slot (`cnt + 4`) of every
active NFSv4.1 or NFSv4.2 segment, following exactly the cursor walk of
collectProtos; these are the slots the decoder skips with its no-op
`i = 3` iteration. -/
def reservedFrom (stats : List Slot) : List Nat → Nat → List Nat
  | [], _ => []
  | j :: js, cnt =>
    match getSlot stats cnt with
    | Except.error _ => []
    | Except.ok flag =>
      if slotTruthy flag then
        (if j < 2 then [] else [cnt + 4]) ++
          reservedFrom stats js (cnt + (if j < 2 then 4 else 5))
      else reservedFrom stats js (cnt + 1)

/-- Concrete all-active record for the C4 counterexample: flags at cursor
positions 3, 7, 11, 16 are all nonzero, segments fully populated. -/
def c4xStats : List Slot :=
  [Slot.num 9, Slot.num 9, Slot.num 9,
   Slot.num 1, Slot.arr [1, 2, 3], Slot.arr [4, 5, 6], Slot.arr [7, 8],
   Slot.num 1, Slot.arr [1, 2, 3], Slot.arr [4, 5, 6], Slot.arr [7, 8],
   Slot.num 1, Slot.arr [1, 2, 3], Slot.arr [4, 5, 6], Slot.arr [7, 8], Slot.num 0,
   Slot.num 1, Slot.arr [1, 2, 3], Slot.arr [4, 5, 6], Slot.arr [7, 8], Slot.num 0]

/-- Concrete record for the C7 counterexample: flags of protocols 0, 1, 2
are zero, protocol 3 (NFSv4.2) is active with its flag at cursor 6; the
array has length 10, shorter than the 6 + 5 = 11 slots its stride table
entry declares, because the trailing reserved slot is missing. -/
def c7xStats : List Slot :=
  [Slot.num 0, Slot.num 0, Slot.num 0,
   Slot.num 0, Slot.num 0, Slot.num 0,
   Slot.num 1, Slot.arr [1, 2, 3], Slot.arr [4, 5, 6], Slot.arr [7, 8]]

/-- Concrete stats array for the C3 witness. -/
def c3wStats : List Slot :=
  [Slot.num 0, Slot.num 0, Slot.num 0, Slot.num 7,
   Slot.arr [100, 2, 4096], Slot.arr [50, 0, 2048], Slot.arr [10, 1]]

/-- Concrete observation list decoded from c3wStats. -/
def c3wObs : List Obs :=
  [ add_gauge_metric "io_ops_nfsv40_read_total" "NFSv4.0 READ total" "10.0.0.1" 100,
    add_gauge_metric "io_ops_nfsv40_read_errors" "NFSv4.0 READ errors" "10.0.0.1" 2,
    add_gauge_metric "io_ops_nfsv40_read_transferred" "NFSv4.0 READ transferred" "10.0.0.1" 4096,
    add_gauge_metric "io_ops_nfsv40_write_total" "NFSv4.0 WRITE total" "10.0.0.1" 50,
    add_gauge_metric "io_ops_nfsv40_write_errors" "NFSv4.0 WRITE errors" "10.0.0.1" 0,
    add_gauge_metric "io_ops_nfsv40_write_transferred" "NFSv4.0 WRITE transferred" "10.0.0.1" 2048,
    add_gauge_metric "io_ops_nfsv40_other_total" "NFSv4.0 other total" "10.0.0.1" 10,
    add_gauge_metric "io_ops_nfsv40_other_errors" "NFSv4.0 other errors" "10.0.0.1" 1 ]

/-- Concrete record for the C10 witness: protocols 0, 1 and 3 inactive,
protocol 2 (NFSv4.1) active with flag at cursor 5 and reserved slot at
index 9. -/
def c10wStats : List Slot :=
  [Slot.num 0, Slot.num 0, Slot.num 0,
   Slot.num 0, Slot.num 0,
   Slot.num 1, Slot.arr [1, 2, 3], Slot.arr [4, 5, 6], Slot.arr [7, 8], Slot.num 0,
   Slot.num 0]

/-- Sanity check: the one-active-protocol scenario of the specification
decodes to exactly the 8 documented observations. -/
theorem sanity_decode_scenario :
    collect_io_ops_stats_of "10.0.0.1"
      [Slot.num 0, Slot.num 0, Slot.num 0,
       Slot.num 0,
       Slot.num 1, Slot.arr [100, 2, 4096], Slot.arr [50, 0, 2048], Slot.arr [10, 1],
       Slot.num 0, Slot.num 0] =
    Except.ok
      [ add_gauge_metric "io_ops_nfsv40_read_total" "NFSv4.0 READ total" "10.0.0.1" 100,
        add_gauge_metric "io_ops_nfsv40_read_errors" "NFSv4.0 READ errors" "10.0.0.1" 2,
        add_gauge_metric "io_ops_nfsv40_read_transferred" "NFSv4.0 READ transferred" "10.0.0.1" 4096,
        add_gauge_metric "io_ops_nfsv40_write_total" "NFSv4.0 WRITE total" "10.0.0.1" 50,
        add_gauge_metric "io_ops_nfsv40_write_errors" "NFSv4.0 WRITE errors" "10.0.0.1" 0,
        add_gauge_metric "io_ops_nfsv40_write_transferred" "NFSv4.0 WRITE transferred" "10.0.0.1" 2048,
        add_gauge_metric "io_ops_nfsv40_other_total" "NFSv4.0 other total" "10.0.0.1" 10,
        add_gauge_metric "io_ops_nfsv40_other_errors" "NFSv4.0 other errors" "10.0.0.1" 1 ] := rfl

/-- Sanity check: CLI parsing on a few concrete command lines, including
the getopt prefix matching of long options and the whitespace and
underscore forms accepted by int(). -/
theorem sanity_parseargs :
    parseargs [] = ParseOutcome.ok 8080 ∧
    parseargs ["--port=9999"] = ParseOutcome.ok 9999 ∧
    parseargs ["-p", "70"] = ParseOutcome.ok 70 ∧
    parseargs ["--po=9090"] = ParseOutcome.ok 9090 ∧
    parseargs ["--=7"] = ParseOutcome.ok 7 ∧
    parseargs ["-p", " 80 "] = ParseOutcome.ok 80 ∧
    parseargs ["-p", "8_0"] = ParseOutcome.ok 80 ∧
    parseargs ["--port=x"] = ParseOutcome.valueError "x" ∧
    parseargs ["-p", "8__0"] = ParseOutcome.valueError "8__0" ∧
    parseargs ["--bad"] = ParseOutcome.usageExit 1 ∧
    parseargs ["-p"] = ParseOutcome.usageExit 1 ∧
    parseargs ["stray"] = ParseOutcome.usageExit 2 :=
  ⟨rfl, rfl, rfl, rfl, rfl, rfl, rfl, rfl, rfl, rfl, rfl, rfl⟩

/-- Sanity check: the reserved slot of the single active NFSv4.1 segment of
c10wStats sits at index 9. -/
theorem sanity_reserved_slot :
    reservedFrom c10wStats [0, 1, 2, 3] 3 = [9] := rfl

/-- C1: for every GlobalStats record, when success is false the global
collector emits all four protocol total gauges with value 0, each labelled
by the status string; when success is true each emitted value equals the
corresponding protocol total field of the record. -/
theorem c1_global_stats_totals (g : GlobalStats) :
    (g.success = false →
      collect_global_stats g =
        [ statusGauge "total_ops_nfsv3" "Total number of NFSv3 ops" g.status 0,
          statusGauge "total_ops_nfsv40" "Total number of NFSv4.0 ops" g.status 0,
          statusGauge "total_ops_nfsv41" "Total number of NFSv4.1 ops" g.status 0,
          statusGauge "total_ops_nfsv42" "Total number of NFSv4.2 ops" g.status 0 ]) ∧
    (g.success = true →
      collect_global_stats g =
        [ statusGauge "total_ops_nfsv3" "Total number of NFSv3 ops" g.status g.nfsv3_total,
          statusGauge "total_ops_nfsv40" "Total number of NFSv4.0 ops" g.status g.nfsv40_total,
          statusGauge "total_ops_nfsv41" "Total number of NFSv4.1 ops" g.status g.nfsv41_total,
          statusGauge "total_ops_nfsv42" "Total number of NFSv4.2 ops" g.status g.nfsv42_total ]) := by
  constructor <;> intro h <;> simp [collect_global_stats, h]

/-- Witness for C1 at a concrete failed snapshot. -/
theorem c1_global_stats_totals_witness :
    ({ success := false, status := "NOT-OK", nfsv3_total := 7, nfsv40_total := 8,
       nfsv41_total := 9, nfsv42_total := 10 : GlobalStats }).success = false ∧
    collect_global_stats
      { success := false, status := "NOT-OK", nfsv3_total := 7, nfsv40_total := 8,
        nfsv41_total := 9, nfsv42_total := 10 } =
      [ statusGauge "total_ops_nfsv3" "Total number of NFSv3 ops" "NOT-OK" 0,
        statusGauge "total_ops_nfsv40" "Total number of NFSv4.0 ops" "NOT-OK" 0,
        statusGauge "total_ops_nfsv41" "Total number of NFSv4.1 ops" "NOT-OK" 0,
        statusGauge "total_ops_nfsv42" "Total number of NFSv4.2 ops" "NOT-OK" 0 ] :=
  ⟨rfl,
    (c1_global_stats_totals
      { success := false, status := "NOT-OK", nfsv3_total := 7, nfsv40_total := 8,
        nfsv41_total := 9, nfsv42_total := 10 }).1 rfl⟩

/-- C2: when the presence flag read at the cursor is falsy, the decoder
emits nothing for that protocol and continues with the remaining protocol
indices at cursor plus one. -/
theorem c2_zero_flag_skips (addr : String) (stats : List Slot) (j : Nat)
    (js : List Nat) (cnt : Nat) (flag : Slot)
    (hget : getSlot stats cnt = Except.ok flag)
    (hzero : slotTruthy flag = false) :
    collectProtos addr stats (j :: js) cnt = collectProtos addr stats js (cnt + 1) := by
  simp [collectProtos, hget, hzero]

/-- Witness for C2 at a concrete record with a zero NFSv3 flag. -/
theorem c2_zero_flag_skips_witness :
    getSlot [Slot.num 0, Slot.num 0, Slot.num 0, Slot.num 0, Slot.num 0,
      Slot.num 0, Slot.num 0] 3 = Except.ok (Slot.num 0) ∧
    slotTruthy (Slot.num 0) = false ∧
    collectProtos "10.0.0.1"
      [Slot.num 0, Slot.num 0, Slot.num 0, Slot.num 0, Slot.num 0,
        Slot.num 0, Slot.num 0] [0, 1, 2, 3] 3 =
      collectProtos "10.0.0.1"
        [Slot.num 0, Slot.num 0, Slot.num 0, Slot.num 0, Slot.num 0,
          Slot.num 0, Slot.num 0] [1, 2, 3] 4 :=
  ⟨rfl, rfl,
    c2_zero_flag_skips "10.0.0.1"
      [Slot.num 0, Slot.num 0, Slot.num 0, Slot.num 0, Slot.num 0,
        Slot.num 0, Slot.num 0] 0 [1, 2, 3] 3 (Slot.num 0) rfl rfl⟩

/-- C5: a client whose IO-stats query did not return status "OK" yields
zero observations in that scrape, and an independent scrape whose query for
the same address returns "OK" emits the full decoded observation set; no
state is carried between the two scrapes. -/
theorem c5_non_ok_client_skipped (c : ClientRow) (cs : List ClientRow)
    (q1 q2 : String → IopsReply)
    (hbad : (q1 c.addr).status ≠ "OK")
    (hok : (q2 c.addr).status = "OK") :
    collect_io_ops_stats q1 (c :: cs) = collect_io_ops_stats q1 cs ∧
    collect_io_ops_stats q2 [c] = collect_io_ops_stats_of c.addr ((q2 c.addr).stats) := by
  constructor
  · simp [collect_io_ops_stats, hbad]
  · simp only [collect_io_ops_stats, hok, if_true]
    cases hdec : collect_io_ops_stats_of c.addr ((q2 c.addr).stats) with
    | error e => rfl
    | ok obs => simp

/-- Witness for C5: a scrape answering ERROR yields nothing, a second
scrape answering OK yields the decoded set. -/
theorem c5_non_ok_client_skipped_witness :
    ((fun _ : String => ({ status := "ERROR", stats := [] } : IopsReply)) "10.0.0.1").status ≠ "OK" ∧
    ((fun _ : String =>
        ({ status := "OK",
           stats := [Slot.num 0, Slot.num 0, Slot.num 0, Slot.num 0, Slot.num 0,
             Slot.num 0, Slot.num 0] } : IopsReply)) "10.0.0.1").status = "OK" ∧
    collect_io_ops_stats (fun _ => { status := "ERROR", stats := [] })
        [{ addr := "10.0.0.1", rest := [] }] =
      collect_io_ops_stats (fun _ => { status := "ERROR", stats := [] }) [] ∧
    collect_io_ops_stats
        (fun _ =>
          { status := "OK",
            stats := [Slot.num 0, Slot.num 0, Slot.num 0, Slot.num 0, Slot.num 0,
              Slot.num 0, Slot.num 0] })
        [{ addr := "10.0.0.1", rest := [] }] =
      collect_io_ops_stats_of "10.0.0.1"
        [Slot.num 0, Slot.num 0, Slot.num 0, Slot.num 0, Slot.num 0,
          Slot.num 0, Slot.num 0] := by
  refine ⟨by decide, rfl, ?_⟩
  exact c5_non_ok_client_skipped { addr := "10.0.0.1", rest := [] } []
    (fun _ => { status := "ERROR", stats := [] })
    (fun _ =>
      { status := "OK",
        stats := [Slot.num 0, Slot.num 0, Slot.num 0, Slot.num 0, Slot.num 0,
          Slot.num 0, Slot.num 0] })
    (by decide) rfl

/-- C6: decoding is deterministic and stateless: any two runs of the
decoder on the same immutable record and address produce identical
observation sequences. -/
theorem c6_decode_deterministic (addr : String) (stats : List Slot)
    (run1 run2 : Except String (List Obs))
    (h1 : run1 = collect_io_ops_stats_of addr stats)
    (h2 : run2 = collect_io_ops_stats_of addr stats) :
    run1 = run2 := h1.trans h2.symm

/-- Witness for C6 at a concrete record. -/
theorem c6_decode_deterministic_witness :
    collect_io_ops_stats_of "10.0.0.1"
        [Slot.num 0, Slot.num 0, Slot.num 0, Slot.num 1, Slot.arr [1, 2, 3],
          Slot.arr [4, 5, 6], Slot.arr [7, 8], Slot.num 0, Slot.num 0, Slot.num 0] =
      collect_io_ops_stats_of "10.0.0.1"
        [Slot.num 0, Slot.num 0, Slot.num 0, Slot.num 1, Slot.arr [1, 2, 3],
          Slot.arr [4, 5, 6], Slot.arr [7, 8], Slot.num 0, Slot.num 0, Slot.num 0] :=
  c6_decode_deterministic "10.0.0.1"
    [Slot.num 0, Slot.num 0, Slot.num 0, Slot.num 1, Slot.arr [1, 2, 3],
      Slot.arr [4, 5, 6], Slot.arr [7, 8], Slot.num 0, Slot.num 0, Slot.num 0]
    _ _ rfl rfl

/-- C9: the startup flow performs exactly one global-stats query (its
outcome depends only on the first oracle reply); a failed probe prints the
returned status and exits with the nonzero code 1 without serving, and a
successful probe starts the HTTP server. -/
theorem c9_startup_probe (oracle : Nat → GlobalStats) (port : Int) :
    ((oracle 0).success = false →
      mainFlow oracle port = MainOutcome.exitWith 1 (oracle 0).status ∧ (1 : Nat) ≠ 0) ∧
    ((oracle 0).success = true → mainFlow oracle port = MainOutcome.serveHttp port) ∧
    (∀ oracle2 : Nat → GlobalStats, oracle2 0 = oracle 0 →
      mainFlow oracle2 port = mainFlow oracle port) := by
  refine ⟨?_, ?_, ?_⟩
  · intro h
    exact ⟨by simp [mainFlow, probe_ganesha, h], by decide⟩
  · intro h
    simp [mainFlow, probe_ganesha, h]
  · intro oracle2 h
    simp [mainFlow, probe_ganesha, h]

/-- Witness for C9 at a concrete failing probe. -/
theorem c9_startup_probe_witness :
    ((fun _ : Nat =>
        ({ success := false, status := "DBUS-DOWN", nfsv3_total := 0, nfsv40_total := 0,
           nfsv41_total := 0, nfsv42_total := 0 } : GlobalStats)) 0).success = false ∧
    mainFlow
        (fun _ =>
          { success := false, status := "DBUS-DOWN", nfsv3_total := 0, nfsv40_total := 0,
            nfsv41_total := 0, nfsv42_total := 0 })
        8080 =
      MainOutcome.exitWith 1 "DBUS-DOWN" ∧ (1 : Nat) ≠ 0 :=
  ⟨rfl,
    (c9_startup_probe
        (fun _ =>
          { success := false, status := "DBUS-DOWN", nfsv3_total := 0, nfsv40_total := 0,
            nfsv41_total := 0, nfsv42_total := 0 })
        8080).1 rfl⟩

/-- A successful list lookup witnesses that the index is in range. -/
theorem get?_some_lt {α : Type} :
    ∀ (l : List α) (n : Nat) (a : α), l.get? n = some a → n < l.length := by
  intro l
  induction l with
  | nil => intro n a h; simp [List.get?] at h
  | cons x xs ih =>
    intro n a h
    cases n with
    | zero => simp [List.length]
    | succ n =>
      have := ih n a (by simpa [List.get?] using h)
      simp [List.length]
      omega

/-- A successful emitProto requires the three sub-record slots of the
segment to exist, so the stats array extends at least to index cnt + 3. -/
theorem emitProto_ok_length {addr proto : String} {stats : List Slot} {cnt : Nat}
    {obs : List Obs} (h : emitProto addr proto stats cnt = Except.ok obs) :
    cnt + 4 ≤ stats.length := by
  unfold emitProto at h
  cases h0 : readSub stats (cnt + 1) 0 with
  | error e => simp [h0] at h
  | ok r0 =>
  simp only [h0] at h
  cases h1 : readSub stats (cnt + 1) 1 with
  | error e => simp [h1] at h
  | ok r1 =>
  simp only [h1] at h
  cases h2 : readSub stats (cnt + 1) 2 with
  | error e => simp [h2] at h
  | ok r2 =>
  simp only [h2] at h
  cases h3 : readSub stats (cnt + 2) 0 with
  | error e => simp [h3] at h
  | ok w0 =>
  simp only [h3] at h
  cases h4 : readSub stats (cnt + 2) 1 with
  | error e => simp [h4] at h
  | ok w1 =>
  simp only [h4] at h
  cases h5 : readSub stats (cnt + 2) 2 with
  | error e => simp [h5] at h
  | ok w2 =>
  simp only [h5] at h
  cases h6 : readSub stats (cnt + 3) 0 with
  | error e => simp [h6] at h
  | ok o0 =>
  unfold readSub getSlot at h6
  cases hg : stats.get? (cnt + 3) with
  | none => rw [hg] at h6; simp at h6
  | some s =>
    have := get?_some_lt stats (cnt + 3) s hg
    omega

/-- Counterexample to C4: on a record whose four presence flags are all
nonzero the decoder finishes with cursor 21, having consumed 21 - 3 = 18
slots past the leading 3-element region, not the claimed 19. -/
theorem c4_counterexample :
    (collectProtos "10.0.0.1" c4xStats [0, 1, 2, 3] 3).map Prod.snd = Except.ok 21 ∧
    21 - 3 ≠ 19 :=
  ⟨rfl, by decide⟩

/-- C4, amended: decoding a record whose four presence flags are all
nonzero consumes exactly 4 + 4 + 5 + 5 = 18 slots past the leading
3-element region (cursor advances of 4 for protocol indices 0 and 1, and 5
for indices 2 and 3, the flag slot included in each stride), finishing at
cursor 21; decoding a record whose four flags are all zero consumes exactly
4 slots (one flag read per protocol), finishing at cursor 7. -/
theorem c4_stride_consumption (addr : String) (m0 m1 m2 x4 y4 : Slot)
    (f0 f1 f2 f3 : Nat)
    (r00 r01 r02 w00 w01 w02 o00 o01 : Nat) (rr0 wr0 or0 : List Nat)
    (r10 r11 r12 w10 w11 w12 o10 o11 : Nat) (rr1 wr1 or1 : List Nat)
    (r20 r21 r22 w20 w21 w22 o20 o21 : Nat) (rr2 wr2 or2 : List Nat)
    (r30 r31 r32 w30 w31 w32 o30 o31 : Nat) (rr3 wr3 or3 : List Nat)
    (rest zs : List Slot) :
    (collectProtos addr
        (m0 :: m1 :: m2 ::
          Slot.num (f0 + 1) :: Slot.arr (r00 :: r01 :: r02 :: rr0) ::
            Slot.arr (w00 :: w01 :: w02 :: wr0) :: Slot.arr (o00 :: o01 :: or0) ::
          Slot.num (f1 + 1) :: Slot.arr (r10 :: r11 :: r12 :: rr1) ::
            Slot.arr (w10 :: w11 :: w12 :: wr1) :: Slot.arr (o10 :: o11 :: or1) ::
          Slot.num (f2 + 1) :: Slot.arr (r20 :: r21 :: r22 :: rr2) ::
            Slot.arr (w20 :: w21 :: w22 :: wr2) :: Slot.arr (o20 :: o21 :: or2) :: x4 ::
          Slot.num (f3 + 1) :: Slot.arr (r30 :: r31 :: r32 :: rr3) ::
            Slot.arr (w30 :: w31 :: w32 :: wr3) :: Slot.arr (o30 :: o31 :: or3) :: y4 ::
          rest)
        [0, 1, 2, 3] 3).map Prod.snd = Except.ok 21 ∧
    (21 : Nat) - 3 = 4 + 4 + 5 + 5 ∧
    collectProtos addr
        (m0 :: m1 :: m2 :: Slot.num 0 :: Slot.num 0 :: Slot.num 0 :: Slot.num 0 :: zs)
        [0, 1, 2, 3] 3 = Except.ok ([], 7) :=
  ⟨rfl, rfl, rfl⟩

/-- Counterexample to C7: a record with an active protocol whose stats
array is shorter than the stride table requires for that segment, yet
decoding succeeds and emits the full 8 observations, because the only
missing slot is the trailing reserved one that is never read. -/
theorem c7_counterexample :
    c7xStats.length = 10 ∧
    getSlot c7xStats 6 = Except.ok (Slot.num 1) ∧
    slotTruthy (Slot.num 1) = true ∧
    10 < 6 + 5 ∧
    (collect_io_ops_stats_of "10.0.0.1" c7xStats).map List.length = Except.ok 8 :=
  ⟨rfl, rfl, rfl, by decide, rfl⟩

/-- C7, amended: if the stats array lacks any slot the decoder actually
reads for an active protocol — that is, it is shorter than the segment
start plus 4, the flag and the three sub-record slots — decoding fails with
an error instead of silently truncating; only the trailing reserved slot of
an NFSv4.1/NFSv4.2 segment may be absent without failure, since it is never
read. -/
theorem c7_short_active_record_errors (addr : String) (stats : List Slot)
    (j : Nat) (js : List Nat) (cnt : Nat) (flag : Slot)
    (hget : getSlot stats cnt = Except.ok flag)
    (ht : slotTruthy flag = true)
    (hshort : stats.length < cnt + 4) :
    ∃ e, collectProtos addr stats (j :: js) cnt = Except.error e := by
  cases he : emitProto addr (protos j) stats cnt with
  | error e => exact ⟨e, by simp [collectProtos, hget, ht, he]⟩
  | ok obs => exact absurd (emitProto_ok_length he) (by omega)

/-- Witness for C7 at a concrete truncated record. -/
theorem c7_short_active_record_errors_witness :
    getSlot [Slot.num 0, Slot.num 0, Slot.num 0, Slot.num 1] 3 = Except.ok (Slot.num 1) ∧
    slotTruthy (Slot.num 1) = true ∧
    ([Slot.num 0, Slot.num 0, Slot.num 0, Slot.num 1] : List Slot).length < 3 + 4 ∧
    ∃ e, collectProtos "10.0.0.1" [Slot.num 0, Slot.num 0, Slot.num 0, Slot.num 1]
      [0, 1, 2, 3] 3 = Except.error e :=
  ⟨rfl, rfl, by decide,
    c7_short_active_record_errors "10.0.0.1"
      [Slot.num 0, Slot.num 0, Slot.num 0, Slot.num 1] 0 [1, 2, 3] 3
      (Slot.num 1) rfl rfl (by decide)⟩

/-- Left cancellation for string append. -/
theorem string_append_left_cancel {a b c : String} (h : a ++ b = a ++ c) : b = c := by
  apply String.ext
  have hd := congrArg String.data h
  rw [String.data_append, String.data_append] at hd
  exact List.append_cancel_left hd

/-- Two client IO-ops gauge names with the same protocol tag agree exactly
when their trailing suffixes agree. -/
theorem make_name_suffix_inj {t s1 s2 : String}
    (h : make_name "client" ("io_ops_" ++ t ++ s1) = make_name "client" ("io_ops_" ++ t ++ s2)) :
    s1 = s2 := by
  unfold make_name at h
  exact string_append_left_cancel (string_append_left_cancel h)

/-- C3: a successful decode of an active protocol segment emits exactly 8
observations — READ total/errors/transferred, WRITE total/errors/
transferred, OTHER total/errors, in that order — and no transferred
observation is emitted for the OTHER operation class. -/
theorem c3_active_protocol_emits_eight (addr proto : String) (stats : List Slot)
    (cnt : Nat) (obs : List Obs)
    (h : emitProto addr proto stats cnt = Except.ok obs) :
    obs.length = 8 ∧
    obs.map Obs.name =
      [ make_name "client" ("io_ops_" ++ protocol_tag proto ++ "_read_total"),
        make_name "client" ("io_ops_" ++ protocol_tag proto ++ "_read_errors"),
        make_name "client" ("io_ops_" ++ protocol_tag proto ++ "_read_transferred"),
        make_name "client" ("io_ops_" ++ protocol_tag proto ++ "_write_total"),
        make_name "client" ("io_ops_" ++ protocol_tag proto ++ "_write_errors"),
        make_name "client" ("io_ops_" ++ protocol_tag proto ++ "_write_transferred"),
        make_name "client" ("io_ops_" ++ protocol_tag proto ++ "_other_total"),
        make_name "client" ("io_ops_" ++ protocol_tag proto ++ "_other_errors") ] ∧
    make_name "client" ("io_ops_" ++ protocol_tag proto ++ "_other_transferred") ∉
      obs.map Obs.name := by
  unfold emitProto at h
  cases h0 : readSub stats (cnt + 1) 0 with
  | error e => simp [h0] at h
  | ok r0 =>
  simp only [h0] at h
  cases h1 : readSub stats (cnt + 1) 1 with
  | error e => simp [h1] at h
  | ok r1 =>
  simp only [h1] at h
  cases h2 : readSub stats (cnt + 1) 2 with
  | error e => simp [h2] at h
  | ok r2 =>
  simp only [h2] at h
  cases h3 : readSub stats (cnt + 2) 0 with
  | error e => simp [h3] at h
  | ok w0 =>
  simp only [h3] at h
  cases h4 : readSub stats (cnt + 2) 1 with
  | error e => simp [h4] at h
  | ok w1 =>
  simp only [h4] at h
  cases h5 : readSub stats (cnt + 2) 2 with
  | error e => simp [h5] at h
  | ok w2 =>
  simp only [h5] at h
  cases h6 : readSub stats (cnt + 3) 0 with
  | error e => simp [h6] at h
  | ok o0 =>
  simp only [h6] at h
  cases h7 : readSub stats (cnt + 3) 1 with
  | error e => simp [h7] at h
  | ok o1 =>
  simp only [h7] at h
  injection h with h
  subst h
  refine ⟨rfl, by simp [add_gauge_metric], ?_⟩
  intro hmem
  simp only [List.map_cons, List.map_nil, add_gauge_metric, List.mem_cons,
    List.not_mem_nil, or_false] at hmem
  rcases hmem with h | h | h | h | h | h | h | h <;>
    exact absurd (make_name_suffix_inj h) (by decide)

/-- Witness for C3 at a concrete active NFSv4.0 segment. -/
theorem c3_active_protocol_emits_eight_witness :
    emitProto "10.0.0.1" "NFSv4.0" c3wStats 3 = Except.ok c3wObs ∧
    (c3wObs.length = 8 ∧
     c3wObs.map Obs.name =
       [ make_name "client" ("io_ops_" ++ protocol_tag "NFSv4.0" ++ "_read_total"),
         make_name "client" ("io_ops_" ++ protocol_tag "NFSv4.0" ++ "_read_errors"),
         make_name "client" ("io_ops_" ++ protocol_tag "NFSv4.0" ++ "_read_transferred"),
         make_name "client" ("io_ops_" ++ protocol_tag "NFSv4.0" ++ "_write_total"),
         make_name "client" ("io_ops_" ++ protocol_tag "NFSv4.0" ++ "_write_errors"),
         make_name "client" ("io_ops_" ++ protocol_tag "NFSv4.0" ++ "_write_transferred"),
         make_name "client" ("io_ops_" ++ protocol_tag "NFSv4.0" ++ "_other_total"),
         make_name "client" ("io_ops_" ++ protocol_tag "NFSv4.0" ++ "_other_errors") ] ∧
     make_name "client" ("io_ops_" ++ protocol_tag "NFSv4.0" ++ "_other_transferred") ∉
       c3wObs.map Obs.name) :=
  ⟨rfl, c3_active_protocol_emits_eight "10.0.0.1" "NFSv4.0" c3wStats 3 c3wObs rfl⟩

/-- Setting a list element leaves every other position unchanged. -/
theorem get?_set_of_ne {α : Type} (v : α) :
    ∀ (l : List α) (i j : Nat), i ≠ j → (l.set i v).get? j = l.get? j := by
  intro l
  induction l with
  | nil => intro i j _; rfl
  | cons x xs ih =>
    intro i j h
    cases i with
    | zero =>
      cases j with
      | zero => exact absurd rfl h
      | succ j => rfl
    | succ i =>
      cases j with
      | zero => rfl
      | succ j => exact ih i j (fun hc => h (congrArg Nat.succ hc))

/-- Reads at other positions are unaffected by setting a slot. -/
theorem getSlot_set_ne (stats : List Slot) (v : Slot) {i n : Nat} (h : i ≠ n) :
    getSlot (stats.set i v) n = getSlot stats n := by
  unfold getSlot
  rw [get?_set_of_ne v stats i n h]

/-- Nested reads at other positions are unaffected by setting a slot. -/
theorem readSub_set_ne (stats : List Slot) (v : Slot) {i n : Nat} (h : i ≠ n) (k : Nat) :
    readSub (stats.set i v) n k = readSub stats n k := by
  unfold readSub
  rw [getSlot_set_ne stats v h]

/-- emitProto reads only the slots at cnt + 1, cnt + 2 and cnt + 3, so
setting any other slot leaves its result unchanged. -/
theorem emitProto_set_ne (addr proto : String) (stats : List Slot) (v : Slot)
    {i cnt : Nat} (h1 : i ≠ cnt + 1) (h2 : i ≠ cnt + 2) (h3 : i ≠ cnt + 3) :
    emitProto addr proto (stats.set i v) cnt = emitProto addr proto stats cnt := by
  unfold emitProto
  rw [readSub_set_ne stats v h1 0, readSub_set_ne stats v h1 1, readSub_set_ne stats v h1 2,
    readSub_set_ne stats v h2 0, readSub_set_ne stats v h2 1, readSub_set_ne stats v h2 2,
    readSub_set_ne stats v h3 0, readSub_set_ne stats v h3 1]

/-- The cursor walk only reads slots at or after the current cursor, so
setting a slot strictly before the cursor leaves decoding unchanged. -/
theorem collectProtos_set_lt (addr : String) (stats : List Slot) (v : Slot) (i : Nat) :
    ∀ (js : List Nat) (cnt : Nat), i < cnt →
      collectProtos addr (stats.set i v) js cnt = collectProtos addr stats js cnt := by
  intro js
  induction js with
  | nil => intro cnt _; rfl
  | cons j js ih =>
    intro cnt h
    have hne : i ≠ cnt := Nat.ne_of_lt h
    have h1 : i ≠ cnt + 1 := by omega
    have h2 : i ≠ cnt + 2 := by omega
    have h3 : i ≠ cnt + 3 := by omega
    simp only [collectProtos]
    rw [getSlot_set_ne stats v hne, emitProto_set_ne addr (protos j) stats v h1 h2 h3,
      ih (cnt + 1) (by omega), ih (cnt + (if j < 2 then 4 else 5)) (by omega)]

/-- Every reserved-slot position recorded from cursor cnt lies at least at
cnt + 4. -/
theorem reservedFrom_lb (stats : List Slot) :
    ∀ (js : List Nat) (cnt i : Nat), i ∈ reservedFrom stats js cnt → cnt + 4 ≤ i := by
  intro js
  induction js with
  | nil =>
    intro cnt i h
    simp [reservedFrom] at h
  | cons j js ih =>
    intro cnt i h
    unfold reservedFrom at h
    cases hf : getSlot stats cnt with
    | error e => simp only [hf] at h; simp at h
    | ok flag =>
      simp only [hf] at h
      cases ht : slotTruthy flag with
      | false =>
        simp only [ht, if_neg Bool.false_ne_true] at h
        have := ih (cnt + 1) i h
        omega
      | true =>
        simp only [ht, if_pos rfl] at h
        rcases List.mem_append.mp h with hl | hr
        · by_cases hj : j < 2
          · rw [if_pos hj] at hl; simp at hl
          · rw [if_neg hj] at hl
            simp at hl
            omega
        · have := ih _ _ hr
          by_cases hj : j < 2
          · rw [if_pos hj] at this; omega
          · rw [if_neg hj] at this; omega

/-- Setting a slot at any reserved position recorded by the cursor walk
leaves the whole decode unchanged. -/
theorem collectProtos_set_reserved (addr : String) (stats : List Slot) (v : Slot) :
    ∀ (js : List Nat) (cnt i : Nat), i ∈ reservedFrom stats js cnt →
      collectProtos addr (stats.set i v) js cnt = collectProtos addr stats js cnt := by
  intro js
  induction js with
  | nil =>
    intro cnt i h
    simp [reservedFrom] at h
  | cons j js ih =>
    intro cnt i h
    have hlb : cnt + 4 ≤ i := reservedFrom_lb stats (j :: js) cnt i h
    have hne : i ≠ cnt := by omega
    have h1 : i ≠ cnt + 1 := by omega
    have h2 : i ≠ cnt + 2 := by omega
    have h3 : i ≠ cnt + 3 := by omega
    have e1 : getSlot (stats.set i v) cnt = getSlot stats cnt := getSlot_set_ne stats v hne
    unfold reservedFrom at h
    cases hf : getSlot stats cnt with
    | error e => simp only [hf] at h; simp at h
    | ok flag =>
      simp only [hf] at h
      cases ht : slotTruthy flag with
      | false =>
        simp only [ht, if_neg Bool.false_ne_true] at h
        simp only [collectProtos, e1, hf, ht, if_neg Bool.false_ne_true]
        exact ih (cnt + 1) i h
      | true =>
        simp only [ht, if_pos rfl] at h
        simp only [collectProtos, e1, hf, ht, if_pos rfl]
        rw [emitProto_set_ne addr (protos j) stats v h1 h2 h3]
        have hrec : collectProtos addr (stats.set i v) js (cnt + (if j < 2 then 4 else 5)) =
            collectProtos addr stats js (cnt + (if j < 2 then 4 else 5)) := by
          rcases List.mem_append.mp h with hl | hr
          · by_cases hj : j < 2
            · rw [if_pos hj] at hl; simp at hl
            · rw [if_neg hj] at hl
              simp at hl
              exact collectProtos_set_lt addr stats v i js _ (by rw [if_neg hj]; omega)
          · exact ih _ i hr
        rw [hrec]
        simp

/-- C10: changing only the trailing reserved slot of an active NFSv4.1 or
NFSv4.2 segment — a position the decoder skips with its no-op iteration —
produces an identical observation sequence: that slot is never read and
influences no emitted name, label or value. -/
theorem c10_reserved_slot_noninterference (addr : String) (stats : List Slot)
    (i : Nat) (v : Slot) (h : i ∈ reservedFrom stats [0, 1, 2, 3] 3) :
    collect_io_ops_stats_of addr (stats.set i v) = collect_io_ops_stats_of addr stats := by
  unfold collect_io_ops_stats_of
  rw [collectProtos_set_reserved addr stats v [0, 1, 2, 3] 3 i h]

/-- Witness for C10: overwriting the reserved slot at index 9 with an
arbitrary value leaves the decoded observations unchanged. -/
theorem c10_reserved_slot_noninterference_witness :
    9 ∈ reservedFrom c10wStats [0, 1, 2, 3] 3 ∧
    collect_io_ops_stats_of "10.0.0.1" (c10wStats.set 9 (Slot.num 777)) =
      collect_io_ops_stats_of "10.0.0.1" c10wStats :=
  ⟨by decide,
    c10_reserved_slot_noninterference "10.0.0.1" c10wStats 9 (Slot.num 777) (by decide)⟩

end GaneshaExporter
